import Mathlib

/-!
Verification of the SEO audit pipeline in `src/ai_seo_auditor.py`.

The Python source is shallowly embedded: the document, as parsed by the
HTML library, is modelled by the `Soup` structure (the fields are exactly
the queries the program performs on the parsed tree); the network is an
oracle (`Http`) mapping a URL to the outcome of a HEAD or GET request;
the URL-library functions the program calls (`urllib.parse.urlsplit`,
`urlparse` and `urljoin`) are reimplemented here following the Python
library's algorithm on the component set the program uses (`params` of
`urlparse`, which the program never touches, is not separated out).
-/

namespace SeoAudit

/-! ## Model of `urllib.parse` (the parts the program calls) -/

/-- The components of a split URL, as returned by Python's `urlsplit`. -/
structure UrlParts where
  scheme : String
  netloc : String
  path : String
  query : String
  fragment : String
deriving DecidableEq, Repr

/-- Characters permitted inside a URL scheme (Python `scheme_chars`). -/
def schemeChar (c : Char) : Bool :=
  c.isAlpha || c.isDigit || c == '+' || c == '-' || c == '.'

/-- Split a character list at the first occurrence of `sep`; the second
component is `none` when `sep` does not occur. -/
def splitOnFirst (sep : Char) : List Char → List Char × Option (List Char)
  | [] => ([], none)
  | c :: rest =>
    if c == sep then ([], some rest)
    else
      let r := splitOnFirst sep rest
      (c :: r.1, r.2)

/-- A character that does not terminate the netloc component
(Python `_splitnetloc` stops at any of the three delimiters). -/
def netlocChar (c : Char) : Bool :=
  !(c == '/') && !(c == '?') && !(c == '#')

/-- Python `s[:1] == c` for a single character. -/
def headIs (c : Char) (s : String) : Bool :=
  match s.toList with
  | x :: _ => x == c
  | [] => false

/-- Python `s[:2] == "xy"` for two characters. -/
def head2Is (c1 c2 : Char) (s : String) : Bool :=
  match s.toList with
  | x :: y :: _ => x == c1 && y == c2
  | _ => false

/-- Python `str.strip()`: remove whitespace from both ends. -/
def pyStrip (s : String) : String :=
  String.mk (((s.toList.dropWhile Char.isWhitespace).reverse.dropWhile
    Char.isWhitespace).reverse)

/-- Split a character list at every character satisfying `p`, keeping
empty pieces. -/
def splitOnP (p : Char → Bool) : List Char → List (List Char)
  | [] => [[]]
  | c :: rest =>
    let r := splitOnP p rest
    if p c then [] :: r
    else
      match r with
      | s :: ss => (c :: s) :: ss
      | [] => [[c]]

/-- Python `urlsplit(url, scheme=defaultScheme)`: scheme (lower-cased),
netloc (taken only after a leading `//`), path, query, fragment. -/
def urlsplitCore (url defaultScheme : String) : UrlParts :=
  let l0 := url.toList
  let fragSplit := splitOnFirst '#' l0
  let l1 := fragSplit.1
  let fragment := (fragSplit.2).getD []
  let schemeSplit : String × List Char :=
    match splitOnFirst ':' l1 with
    | (before, some after) =>
      match before with
      | [] => (defaultScheme, l1)
      | c :: _ =>
        if c.isAlpha && before.all schemeChar then
          (String.mk (before.map Char.toLower), after)
        else (defaultScheme, l1)
    | (_, none) => (defaultScheme, l1)
  let scheme := schemeSplit.1
  let l2 := schemeSplit.2
  let netlocSplit : List Char × List Char :=
    match l2 with
    | '/' :: '/' :: rest => (rest.takeWhile netlocChar, rest.dropWhile netlocChar)
    | _ => ([], l2)
  let netloc := netlocSplit.1
  let l3 := netlocSplit.2
  let querySplit := splitOnFirst '?' l3
  { scheme := scheme
  , netloc := String.mk netloc
  , path := String.mk querySplit.1
  , query := String.mk ((querySplit.2).getD [])
  , fragment := String.mk fragment }

/-- Python `urlsplit` with the empty default scheme; the program only
reads `.netloc` of the result of `urlparse`, for which this is the same. -/
def urlsplit (url : String) : UrlParts := urlsplitCore url ""

/-- Python `urlunsplit`. -/
def urlunsplit (u : UrlParts) : String :=
  let url := u.path
  let url :=
    if u.netloc ≠ "" || head2Is '/' '/' url then
      "//" ++ u.netloc ++ (if url ≠ "" && !(headIs '/' url) then "/" ++ url else url)
    else url
  let url := if u.scheme ≠ "" then u.scheme ++ ":" ++ url else url
  let url := if u.query ≠ "" then url ++ "?" ++ u.query else url
  let url := if u.fragment ≠ "" then url ++ "#" ++ u.fragment else url
  url

/-- Python `uses_relative`: schemes for which relative resolution applies. -/
def usesRelative : List String :=
  ["", "ftp", "http", "gopher", "nntp", "imap", "wais", "file", "https",
   "shttp", "mms", "prospero", "rtsp", "rtspu", "sftp", "svn", "svn+ssh",
   "ws", "wss"]

/-- Python `uses_netloc`: schemes whose URLs carry a network location. -/
def usesNetloc : List String :=
  ["", "ftp", "http", "gopher", "nntp", "telnet", "imap", "wais", "file",
   "mms", "https", "shttp", "snews", "prospero", "rtsp", "rtspu", "rsync",
   "svn", "svn+ssh", "sftp", "nfs", "git", "git+ssh", "ws", "wss"]

/-- Python `str.split(sep)` on a single character, keeping empty pieces. -/
def splitOn (sep : Char) : List Char → List (List Char)
  | [] => [[]]
  | c :: rest =>
    let r := splitOn sep rest
    if c == sep then [] :: r
    else
      match r with
      | s :: ss => (c :: s) :: ss
      | [] => [[c]]

/-- Python `segments[1:-1] = filter(None, segments[1:-1])`: drop empty
segments strictly between the first and the last. -/
def filterMiddle (l : List String) : List String :=
  match l with
  | [] => []
  | [a] => [a]
  | a :: rest =>
    match rest.getLast? with
    | none => [a]
    | some last => a :: (rest.dropLast.filter (fun s => s != "")) ++ [last]

/-- One step of Python's dot-segment resolution loop inside `urljoin`. -/
def resolveStep (acc : List String) (seg : String) : List String :=
  if seg = ".." then acc.dropLast
  else if seg = "." then acc
  else acc ++ [seg]

/-- Python `urljoin(base, url)`, following the CPython implementation
(with `params` folded into the path, which the program never produces). -/
def urljoin (base url : String) : String :=
  if base = "" then url
  else if url = "" then base
  else
    let b := urlsplit base
    let r := urlsplitCore url b.scheme
    if r.scheme ≠ b.scheme || !(usesRelative.contains r.scheme) then url
    else if usesNetloc.contains r.scheme && r.netloc ≠ "" then
      urlunsplit r
    else
      let netloc := if usesNetloc.contains r.scheme then b.netloc else r.netloc
      if r.path = "" then
        urlunsplit { scheme := r.scheme, netloc := netloc, path := b.path
                   , query := if r.query = "" then b.query else r.query
                   , fragment := r.fragment }
      else
        let baseParts := (splitOn '/' b.path.toList).map (fun s => String.mk s)
        let baseParts := if baseParts.getLast? ≠ some "" then baseParts.dropLast else baseParts
        let segments :=
          if headIs '/' r.path then (splitOn '/' r.path.toList).map (fun s => String.mk s)
          else filterMiddle (baseParts ++ (splitOn '/' r.path.toList).map (fun s => String.mk s))
        let resolved := segments.foldl resolveStep []
        let resolved :=
          if segments.getLast? = some "." || segments.getLast? = some ".." then
            resolved ++ [""]
          else resolved
        let path := String.intercalate "/" resolved
        let path := if path = "" then "/" else path
        urlunsplit { scheme := r.scheme, netloc := netloc, path := path
                   , query := r.query, fragment := r.fragment }

/-! ## Model of the parsed document and of the network

`Soup` records exactly the queries `ai_seo_auditor.py` performs on the
tree returned by the HTML library: the title string, the description
meta tag, heading counts per level, the first base tag, the img tags,
the hrefs of the href-bearing anchor tags in document order, and the
text content remaining once script and style elements are removed. -/

/-- An `img` element as the program reads it: its `src` and `alt`
attributes, each possibly absent. -/
structure ImgTag where
  src : Option String
  alt : Option String

/-- The observations the program makes on a parsed HTML document. -/
structure Soup where
  /-- `soup.title.string` (`none` when there is no title tag or it has
  no string). -/
  title : Option String
  /-- The description meta tag: `none` when absent, `some c` when
  present where `c` is its `content` attribute (possibly absent). -/
  metaDescTag : Option (Option String)
  /-- `len(soup.find_all("h<level>"))` for each level. -/
  headings : Nat → Nat
  /-- The first `base` tag: `none` when absent, `some h` when present
  where `h` is its `href` attribute (possibly absent). -/
  baseTag : Option (Option String)
  /-- All `img` elements in document order. -/
  imgs : List ImgTag
  /-- The `href` values of all href-bearing `a` elements in document
  order (one entry per element occurrence). -/
  anchors : List String
  /-- `soup.get_text(separator=" ")` after script/style extraction. -/
  textContent : String

/-- Outcome of one HTTP request: a status code, or a raised
`requests.exceptions.RequestException` (timeout, DNS failure,
connection refused, non-fetchable scheme, too many redirects...). -/
inductive ProbeOutcome
  | status (n : Nat)
  | exn
deriving DecidableEq, Repr

/-- The network as an oracle: what `requests.head` (with
`allow_redirects=True` and the fixed `REQUEST_TIMEOUT`) and
`requests.get` return for each URL during this run. -/
structure Http where
  head : String → ProbeOutcome
  get : String → ProbeOutcome

/-- The `status` field of a link record: an HTTP status code, or the
string `"Error"` the program stores when the request raised. -/
inductive LinkStatus
  | code (n : Nat)
  | error
deriving DecidableEq, Repr

/-- An entry of the `images` list built by `parse_html`. -/
structure ImageRec where
  src : String
  alt : String
deriving DecidableEq, Repr

/-- An entry of the `links` list built by `parse_html`:
`{"url": ..., "status": ..., "type": ...}`. -/
structure LinkRec where
  url : String
  status : LinkStatus
  type : String
deriving DecidableEq, Repr

/-- The dictionary returned by `parse_html`. -/
structure Parsed where
  meta_title : String
  meta_description : String
  headers : List (String × Nat)
  images : List ImageRec
  links : List LinkRec
  main_text : String
deriving DecidableEq, Repr

/-- The dictionary returned by `generate_audit_report`. -/
structure Report where
  url : String
  meta_title : String
  meta_description : String
  headers : List (String × Nat)
  image_count : Nat
  link_count : Nat
  internal_link_count : Nat
  external_link_count : Nat
  broken_link_count : Nat
  error_link_count : Nat
  main_text_length : Nat
deriving DecidableEq, Repr

/-! ## The program's functions -/

/-- `re.sub(r'\s+', ' ', main_text).strip()`: collapse whitespace runs
to single spaces and trim the ends (equivalently, join the non-empty
whitespace-separated tokens with single spaces). -/
def normalize_space (s : String) : String :=
  String.intercalate " "
    (((splitOnP Char.isWhitespace s.toList).map (fun t => String.mk t)).filter
      (fun t => t != ""))

/-- The fallback of `get_base_url_from_html` (lines 48–51): look at the
first href-bearing anchor only; if its href has a netloc, strip it to
the root with `urljoin(href, "/")`, else return the empty sentinel. -/
def first_link_base (soup : Soup) : String :=
  match soup.anchors.head? with
  | some href => if (urlsplit href).netloc ≠ "" then urljoin href "/" else ""
  | none => ""

/-- `get_base_url_from_html` (lines 40–51): prefer the base tag's href
when the tag exists and the attribute is present and non-empty (Python
truthiness of `base_tag.get("href")`), else fall back to the first
anchor. -/
def get_base_url_from_html (soup : Soup) : String :=
  match soup.baseTag with
  | some (some h) => if h ≠ "" then h else first_link_base soup
  | some none => first_link_base soup
  | none => first_link_base soup

/-- The probe in the body of the link loop of `parse_html` (lines
71–77): a HEAD request; on a status `>= 400` one retry with a GET; any
raised `RequestException` in the `try` block yields `"Error"`. -/
def check_link (http : Http) (url : String) : LinkStatus :=
  match http.head url with
  | .exn => .error
  | .status s =>
    if s ≥ 400 then
      match http.get url with
      | .exn => .error
      | .status t => .code t
    else .code s

/-- The record appended for one anchor in the link loop of
`parse_html` (lines 68–79): `full_href = urljoin(base_url, href)`, the
probe result, and the classification comparing
`urlparse(full_href).netloc` with `urlparse(base_url).netloc`. -/
def link_of (base_url : String) (http : Http) (href : String) : LinkRec :=
  { url := urljoin base_url href
  , status := check_link http (urljoin base_url href)
  , type := if (urlsplit (urljoin base_url href)).netloc = (urlsplit base_url).netloc
            then "internal" else "external" }

/-- `parse_html(page_html, base_url)` (lines 53–84), with the HTML
parse given as `soup` and the network as `http`. -/
def parse_html (soup : Soup) (base_url : String) (http : Http) : Parsed :=
  { meta_title :=
      match soup.title with
      | some s => if s = "" then "" else pyStrip s
      | none => ""
  , meta_description :=
      match soup.metaDescTag with
      | some c => pyStrip (c.getD "")
      | none => ""
  , headers := (List.range' 1 6).map (fun lv => ("h" ++ toString lv, soup.headings lv))
  , images := soup.imgs.map (fun im =>
      { src := urljoin base_url (im.src.getD "")
      , alt := pyStrip (im.alt.getD "No alt text provided") })
  , links := soup.anchors.map (link_of base_url http)
  , main_text := normalize_space soup.textContent }

/-- `generate_audit_report(url, parsed_data)` (lines 86–88). -/
def generate_audit_report (url : String) (d : Parsed) : Report :=
  { url := url
  , meta_title := d.meta_title
  , meta_description := d.meta_description
  , headers := d.headers
  , image_count := d.images.length
  , link_count := d.links.length
  , internal_link_count := d.links.countP (fun l => l.type == "internal")
  , external_link_count := d.links.countP (fun l => l.type == "external")
  , broken_link_count :=
      d.links.countP (fun l => l.status != .code 200 && l.status != .error)
  , error_link_count := d.links.countP (fun l => l.status == .error)
  , main_text_length := d.main_text.length }

/-! ## The enrichment call, the export artifact, and the batch loop -/

/-- The outcome of `client.text_generation(prompt)` inside
`send_to_mistral`: a string, a list whose entries may carry a
`generated_text` field, some other shape, or a raised exception. -/
inductive HfResponse
  | text (s : String)
  | gens (l : List (Option String))
  | other
  | raised

/-- `send_to_mistral` (lines 90–105), with the API response as an
oracle argument: it never raises, every failure is mapped to a
sentinel string. -/
def send_to_mistral (resp : HfResponse) : String :=
  match resp with
  | .text s => pyStrip s
  | .gens (some g :: _) => pyStrip g
  | .gens (none :: _) => "Failed to parse Mistral response."
  | .gens [] => "Failed to parse Mistral response."
  | .other => "Failed to parse Mistral response."
  | .raised => "Error connecting to Mistral."

/-- The base64 alphabet used by `base64.b64encode`. -/
def b64_alphabet : List Char :=
  "ABCDEFGHIJKLMNOPQRSTUVWXYZabcdefghijklmnopqrstuvwxyz0123456789+/".toList

/-- The base64 digit for a 6-bit value. -/
def b64_char (n : Nat) : Char := b64_alphabet.getD n 'A'

/-- `base64.b64encode` over a byte list, with `=` padding. -/
def b64_encode_bytes : List Nat → List Char
  | [] => []
  | [a] => [b64_char (a / 4), b64_char (a % 4 * 16), '=', '=']
  | [a, b] => [b64_char (a / 4), b64_char (a % 4 * 16 + b / 16), b64_char (b % 16 * 4), '=']
  | a :: b :: c :: rest =>
    b64_char (a / 4) :: b64_char (a % 4 * 16 + b / 16) ::
      b64_char (b % 16 * 4 + c / 64) :: b64_char (c % 64) :: b64_encode_bytes rest

/-- `create_download_link(val, filename)` (lines 107–109). -/
def create_download_link (val filename : String) : String :=
  let b64 := String.mk (b64_encode_bytes (val.toUTF8.toList.map (fun byte => byte.toNat)))
  "<a href=\"data:file/txt;base64," ++ b64 ++ "\" download=\"" ++ filename ++
    "\">Download Report</a>"

/-- A JSON string literal (escaping of exotic characters elided; no
field the program serializes contains one). -/
def json_str (s : String) : String := "\"" ++ s ++ "\""

/-- The serialization of the headers dictionary inside
`json.dumps(report, indent=4)` (indentation whitespace abstracted). -/
def dumps_headers (hs : List (String × Nat)) : String :=
  "\x7b" ++ String.intercalate ", " (hs.map (fun p => json_str p.1 ++ ": " ++ toString p.2)) ++ "\x7d"

/-- `json.dumps(report, indent=4)`: the report as JSON text
(indentation whitespace abstracted; key order as in the source). -/
def dumps_report (r : Report) : String :=
  "\x7b" ++ String.intercalate ", "
    [ json_str "url" ++ ": " ++ json_str r.url
    , json_str "meta_title" ++ ": " ++ json_str r.meta_title
    , json_str "meta_description" ++ ": " ++ json_str r.meta_description
    , json_str "headers" ++ ": " ++ dumps_headers r.headers
    , json_str "image_count" ++ ": " ++ toString r.image_count
    , json_str "link_count" ++ ": " ++ toString r.link_count
    , json_str "internal_link_count" ++ ": " ++ toString r.internal_link_count
    , json_str "external_link_count" ++ ": " ++ toString r.external_link_count
    , json_str "broken_link_count" ++ ": " ++ toString r.broken_link_count
    , json_str "error_link_count" ++ ": " ++ toString r.error_link_count
    , json_str "main_text_length" ++ ": " ++ toString r.main_text_length ] ++ "\x7d"

/-- The report text without an enrichment section, as built on line
157: `f"URL: {base_url}\n\nAudit Report:\n{json.dumps(report, indent=4)}"`. -/
def plain_report_text (base_url : String) (r : Report) : String :=
  "URL: " ++ base_url ++ "\n\nAudit Report:\n" ++ dumps_report r

/-- One iteration of the article loop (lines 141–159): audit the
article, call the enrichment, and build the export artifact and its
download link.  Returns (report, report_text, download link).  The
`if enhanced_report:` test is Python truthiness of a string. -/
def process_article (http : Http) (resp : HfResponse) (i : Nat) (html : Soup) :
    Report × String × String :=
  let base_url := get_base_url_from_html html
  let parsed_data := parse_html html base_url http
  let report := generate_audit_report base_url parsed_data
  let enhanced_report := send_to_mistral resp
  let report_text :=
    if enhanced_report ≠ "" then
      plain_report_text base_url report ++ "\n\nEnhanced Analysis:\n" ++ enhanced_report
    else
      plain_report_text base_url report
  (report, report_text,
    create_download_link report_text ("audit_report_" ++ toString (i + 1) ++ ".txt"))

/-- An element of the uploaded JSON list: a dictionary (with or
without a `page_html` field, whose parse is the carried `Soup`), or a
non-dictionary value. -/
inductive JsonItem
  | dict (page_html : Option Soup)
  | nondict

/-- `valid_articles` (line 129): keep the dictionaries that carry a
`page_html` field. -/
def valid_articles (data : List JsonItem) : List Soup :=
  data.filterMap (fun a =>
    match a with
    | .dict (some h) => some h
    | .dict none => none
    | .nondict => none)

/-- The audit of one article as the loop performs it (lines 143–146):
the base URL is auto-discovered from the markup. -/
def audit_article (html : Soup) (http : Http) : Report :=
  let base_url := get_base_url_from_html html
  generate_audit_report base_url (parse_html html base_url http)

/-- The batch body for an uploaded JSON list (lines 128–147): filter
to the valid articles, fail the whole upload when none remain, and
otherwise audit each valid article in order. -/
def run_batch (data : List JsonItem) (http : Http) : Except String (List Report) :=
  let valid := valid_articles data
  if valid.isEmpty then
    .error "Uploaded JSON file does not contain any valid articles with a page_html field."
  else
    .ok (valid.map (fun html => audit_article html http))

/-! ## Concrete fixtures used by counterexamples and witnesses -/

/-- A network oracle on which every request raises. -/
def errHttp : Http := { head := fun _ => .exn, get := fun _ => .exn }

/-- A network oracle answering 304 Not Modified everywhere (a status
`requests` does not follow as a redirect, so it can be the final
status even with `allow_redirects=True`). -/
def http304 : Http := { head := fun _ => .status 304, get := fun _ => .status 304 }

/-- A document with a title and nothing else. -/
def titledSoup (t : String) : Soup :=
  { title := some t, metaDescTag := none, headings := fun _ => 0
  , baseTag := none, imgs := [], anchors := [], textContent := "" }

/-- The spec's concrete scenario markup,
`<html><head><title>Hi</title></head><body><a href="/a">A</a>` +
`<a href="http://ext.com/b">B</a><img src="/c.png"></body></html>`,
as parsed: the img has no alt attribute. -/
def scenarioSoup : Soup :=
  { title := some "Hi", metaDescTag := none, headings := fun _ => 0
  , baseTag := none
  , imgs := [{ src := some "/c.png", alt := none }]
  , anchors := ["/a", "http://ext.com/b"]
  , textContent := "A B" }

/-- A document whose single anchor is relative (used with the empty
base sentinel). -/
def c4soup : Soup :=
  { title := none, metaDescTag := none, headings := fun _ => 0
  , baseTag := none, imgs := [], anchors := ["/a"], textContent := "" }

/-- A document with one same-host anchor (used with the 304 oracle). -/
def c2soup : Soup :=
  { title := none, metaDescTag := none, headings := fun _ => 0
  , baseTag := none, imgs := [], anchors := ["http://site.com/x"], textContent := "" }

/-- A document whose single anchor differs from the base host only in
letter case. -/
def c6soup : Soup :=
  { title := none, metaDescTag := none, headings := fun _ => 0
  , baseTag := none, imgs := [], anchors := ["http://SITE.com/a"], textContent := "" }

/-- A document with no base tag whose first anchor is relative and
whose second anchor is absolute. -/
def c7soup : Soup :=
  { title := none, metaDescTag := none, headings := fun _ => 0
  , baseTag := none, imgs := [], anchors := ["/a", "http://x.com/b"], textContent := "" }

/-- A document with one relative and one other-host anchor (the spec's
resolution-correctness example, base `https://example.com/`). -/
def w6soup : Soup :=
  { title := none, metaDescTag := none, headings := fun _ => 0
  , baseTag := none, imgs := [], anchors := ["/about", "https://other.com/x"]
  , textContent := "" }

/-- A document with an explicit base tag carrying a non-empty href. -/
def w7a : Soup :=
  { title := none, metaDescTag := none, headings := fun _ => 0
  , baseTag := some (some "http://b.com/dir/"), imgs := [], anchors := []
  , textContent := "" }

/-- A document with no base tag whose first anchor is absolute. -/
def w7b : Soup :=
  { title := none, metaDescTag := none, headings := fun _ => 0
  , baseTag := none, imgs := [], anchors := ["http://x.com/a/b"], textContent := "" }

/-- A document with a single anchor, to be duplicated. -/
def w10soup : Soup :=
  { title := none, metaDescTag := none, headings := fun _ => 0
  , baseTag := none, imgs := [], anchors := ["/a"], textContent := "" }

/-- An oracle whose HEAD reports 500 and whose GET reports 404. -/
def http500404 : Http := { head := fun _ => .status 500, get := fun _ => .status 404 }

/-- An oracle whose HEAD reports 200 (the GET, never reached on such a
status, would raise). -/
def http200 : Http := { head := fun _ => .status 200, get := fun _ => .exn }

/-! ## Helper lemmas -/

/-- The link list of `parse_html` is the anchor list mapped through
`link_of`. -/
theorem parse_html_links (soup : Soup) (base_url : String) (http : Http) :
    (parse_html soup base_url http).links = soup.anchors.map (link_of base_url http) := rfl

/-- Counting two pointwise-complementary predicates covers the list. -/
theorem countP_partition {α : Type} (p q : α → Bool) (h : ∀ x, p x = !(q x)) :
    ∀ l : List α, l.countP p + l.countP q = l.length
  | [] => by simp
  | a :: t => by
    have ih := countP_partition p q h t
    have ha := h a
    simp only [List.countP_cons, List.length_cons]
    cases hq : q a <;> rw [hq] at ha <;> simp [ha, hq] <;> omega

/-- Counting two pointwise-disjoint predicates stays within the
length. -/
theorem countP_disjoint_le {α : Type} (p q : α → Bool)
    (h : ∀ x, p x = true → q x = false) :
    ∀ l : List α, l.countP p + l.countP q ≤ l.length
  | [] => by simp
  | a :: t => by
    have ih := countP_disjoint_le p q h t
    simp only [List.countP_cons, List.length_cons]
    cases hp : p a
    · cases hq : q a <;> simp [hp, hq] <;> omega
    · have hq := h a hp
      simp [hp, hq]
      omega

/-- Appending one element adds its own contribution to a count. -/
theorem countP_append_singleton {α : Type} (p : α → Bool) (l : List α) (x : α) :
    (l ++ [x]).countP p = l.countP p + (if p x then 1 else 0) := by
  rw [List.countP_append]
  simp [List.countP_cons]

/-- Counting three predicates of which exactly one holds at each
element gives the length. -/
theorem countP_three_partition {α : Type} (p q r : α → Bool)
    (h : ∀ x, (p x = true ∧ q x = false ∧ r x = false)
      ∨ (p x = false ∧ q x = true ∧ r x = false)
      ∨ (p x = false ∧ q x = false ∧ r x = true)) :
    ∀ l : List α, l.countP p + l.countP q + l.countP r = l.length
  | [] => by simp
  | a :: t => by
    have ih := countP_three_partition p q r h t
    simp only [List.countP_cons, List.length_cons]
    rcases h a with ⟨h1, h2, h3⟩ | ⟨h1, h2, h3⟩ | ⟨h1, h2, h3⟩ <;>
      simp [h1, h2, h3] <;> omega

/-! ## Claims -/

/-- C1: for every document, the audit report satisfies
`internal_link_count + external_link_count = link_count` (the total
number of discovered anchors) and
`broken_link_count + error_link_count ≤ link_count`; the counts are
natural numbers computed from the per-link records alone. -/
theorem audit_report_count_invariants (soup : Soup) (base url : String) (http : Http) :
    (generate_audit_report url (parse_html soup base http)).internal_link_count
        + (generate_audit_report url (parse_html soup base http)).external_link_count
      = (generate_audit_report url (parse_html soup base http)).link_count
    ∧ (generate_audit_report url (parse_html soup base http)).broken_link_count
        + (generate_audit_report url (parse_html soup base http)).error_link_count
      ≤ (generate_audit_report url (parse_html soup base http)).link_count
    ∧ (generate_audit_report url (parse_html soup base http)).link_count
      = soup.anchors.length := by
  refine ⟨?_, ?_, ?_⟩
  · show ((parse_html soup base http).links.countP (fun l => l.type == "internal"))
        + ((parse_html soup base http).links.countP (fun l => l.type == "external"))
      = (parse_html soup base http).links.length
    rw [parse_html_links, List.countP_map, List.countP_map, List.length_map]
    refine countP_partition _ _ ?_ _
    intro href
    simp only [Function.comp_apply, link_of]
    by_cases hc : (urlsplit (urljoin base href)).netloc = (urlsplit base).netloc
    · simp [hc]
    · simp [hc]
  · show ((parse_html soup base http).links.countP
          (fun l => l.status != LinkStatus.code 200 && l.status != LinkStatus.error))
        + ((parse_html soup base http).links.countP (fun l => l.status == LinkStatus.error))
      ≤ (parse_html soup base http).links.length
    refine countP_disjoint_le _ _ ?_ _
    intro x hx
    cases hstat : x.status with
    | code n => simp [hstat]
    | error => rw [hstat] at hx; simp at hx
  · show (parse_html soup base http).links.length = soup.anchors.length
    rw [parse_html_links, List.length_map]

/-- C2 counterexample: a link whose final status is 304 (a redirect
status that `requests` does not follow) is counted as broken, although
304 < 400; so "broken iff status ≥ 400" fails on the code. -/
theorem broken_threshold_counterexample :
    (parse_html c2soup "http://site.com/" http304).links.map (fun l => l.status)
        = [LinkStatus.code 304]
    ∧ (generate_audit_report "http://site.com/"
        (parse_html c2soup "http://site.com/" http304)).broken_link_count = 1
    ∧ (generate_audit_report "http://site.com/"
        (parse_html c2soup "http://site.com/" http304)).error_link_count = 0 :=
  ⟨rfl, rfl, rfl⟩

/-- C2 amended: a link is counted as broken iff its status is neither
exactly the HTTP code 200 nor the Errored sentinel, and as errored iff
its status is the Errored sentinel; the two categories are disjoint
and, together with the exactly-200 links, partition the link set. -/
theorem broken_errored_partition (soup : Soup) (base url : String) (http : Http) :
    (generate_audit_report url (parse_html soup base http)).broken_link_count
        + (generate_audit_report url (parse_html soup base http)).error_link_count
        + (parse_html soup base http).links.countP (fun l => l.status == LinkStatus.code 200)
      = (generate_audit_report url (parse_html soup base http)).link_count
    ∧ (parse_html soup base http).links.filter
        (fun l => (l.status != LinkStatus.code 200 && l.status != LinkStatus.error)
          && l.status == LinkStatus.error) = [] := by
  constructor
  · show ((parse_html soup base http).links.countP
          (fun l => l.status != LinkStatus.code 200 && l.status != LinkStatus.error))
        + ((parse_html soup base http).links.countP (fun l => l.status == LinkStatus.error))
        + ((parse_html soup base http).links.countP (fun l => l.status == LinkStatus.code 200))
      = (parse_html soup base http).links.length
    refine countP_three_partition _ _ _ ?_ _
    intro x
    cases hstat : x.status with
    | code n =>
      by_cases h200 : n = 200
      · subst h200
        right; right
        refine ⟨?_, ?_, ?_⟩ <;> simp [hstat]
      · left
        refine ⟨?_, ?_, ?_⟩ <;> simp [hstat, h200]
    | error =>
      right; left
      refine ⟨?_, ?_, ?_⟩ <;> simp [hstat]
  · rw [List.filter_eq_nil_iff]
    intro x _
    cases hstat : x.status <;> simp [hstat]

/-- C3 counterexample: on a 3-document batch whose second entry has no
`page_html` field, the batch result is exactly the two audit reports
for documents 1 and 3 — it contains no record of any kind for
document 2, so "exactly 1 FailureRecord (for document 2)" fails. -/
theorem batch_silent_filter_counterexample :
    run_batch [.dict (some (titledSoup "One")), .dict none, .dict (some (titledSoup "Three"))]
        errHttp
      = .ok
        [ { url := "", meta_title := "One", meta_description := ""
          , headers := [("h1", 0), ("h2", 0), ("h3", 0), ("h4", 0), ("h5", 0), ("h6", 0)]
          , image_count := 0, link_count := 0, internal_link_count := 0
          , external_link_count := 0, broken_link_count := 0, error_link_count := 0
          , main_text_length := 0 }
        , { url := "", meta_title := "Three", meta_description := ""
          , headers := [("h1", 0), ("h2", 0), ("h3", 0), ("h4", 0), ("h5", 0), ("h6", 0)]
          , image_count := 0, link_count := 0, internal_link_count := 0
          , external_link_count := 0, broken_link_count := 0, error_link_count := 0
          , main_text_length := 0 } ] := rfl

/-- C3 amended: a 3-document batch whose second entry lacks the
raw-markup field yields exactly the 2 successful audit reports for
documents 1 and 3, in original order; the invalid document is filtered
out before processing and no failure record is produced for it. -/
theorem batch_filters_invalid_articles (s1 s3 : Soup) (http : Http) :
    run_batch [.dict (some s1), .dict none, .dict (some s3)] http
      = .ok [audit_article s1 http, audit_article s3 http] := rfl

/-- C4 counterexample: with the empty base sentinel, the relative
anchor `/a` is classified as internal (its netloc and the empty base's
netloc are both empty), refuting "every anchor is external". -/
theorem empty_base_internal_counterexample :
    (parse_html c4soup "" errHttp).links.map (fun l => l.type) = ["internal"] := rfl

/-- C4 amended: with the empty base sentinel an anchor is classified
internal iff its resolved URL (its href, unchanged by resolution
against the empty base) has an empty host component; only anchors
whose href carries a host are classified external. -/
theorem empty_base_classification (soup : Soup) (http : Http) :
    ∀ l ∈ (parse_html soup "" http).links,
      (l.type = "internal" ↔ (urlsplit l.url).netloc = "") := by
  intro l hl
  rw [parse_html_links] at hl
  simp only [List.mem_map] at hl
  obtain ⟨href, -, rfl⟩ := hl
  unfold link_of
  dsimp only
  by_cases h : (urlsplit (urljoin "" href)).netloc = (urlsplit "").netloc
  · rw [if_pos h]
    exact iff_of_true rfl h
  · rw [if_neg h]
    exact iff_of_false (by decide) h

/-- C4 witness: the link record produced for the anchor `/a` of
`c4soup` under the empty base is classified internal iff its netloc is
empty. -/
theorem empty_base_classification_witness :
    (({ url := "/a", status := LinkStatus.error, type := "internal" } : LinkRec).type
        = "internal")
      ↔ (urlsplit "/a").netloc = "" :=
  empty_base_classification c4soup errHttp
    { url := "/a", status := LinkStatus.error, type := "internal" } (by decide)

/-- C5 counterexample: in the spec's concrete scenario the single
image (whose `alt` attribute is absent) surfaces with alt text
`"No alt text provided"`, not with the empty string. -/
theorem image_alt_counterexample :
    (parse_html scenarioSoup "http://site.com/" errHttp).images.map (fun im => im.alt)
        = ["No alt text provided"]
    ∧ ("No alt text provided" : String) ≠ "" :=
  ⟨rfl, by decide⟩

/-- C5 amended: an absent `alt` attribute surfaces as the default text
`"No alt text provided"`, while a present (possibly empty) `alt`
attribute surfaces trimmed; the spec's concrete scenario with base
`http://site.com/` yields meta_title "Hi", 1 internal link
(`http://site.com/a`), 1 external link (`http://ext.com/b`) and 1
image whose alt text is `"No alt text provided"`. -/
theorem image_alt_default (soup : Soup) (base : String) (http : Http) :
    (parse_html soup base http).images.map (fun im => im.alt)
        = soup.imgs.map (fun im => pyStrip (im.alt.getD "No alt text provided"))
    ∧ (parse_html scenarioSoup "http://site.com/" errHttp).meta_title = "Hi"
    ∧ (parse_html scenarioSoup "http://site.com/" errHttp).images
        = [{ src := "http://site.com/c.png", alt := "No alt text provided" }]
    ∧ (parse_html scenarioSoup "http://site.com/" errHttp).links.map (fun l => (l.url, l.type))
        = [("http://site.com/a", "internal"), ("http://ext.com/b", "external")] := by
  refine ⟨?_, rfl, rfl, rfl⟩
  show (soup.imgs.map _).map _ = _
  rw [List.map_map]
  rfl

/-- C6 counterexample: with base `http://site.com/`, the anchor
`http://SITE.com/a` — whose host equals the base host up to letter
case — is classified external, refuting case-insensitive comparison. -/
theorem case_sensitive_host_counterexample :
    (parse_html c6soup "http://site.com/" errHttp).links.map (fun l => l.type) = ["external"]
    ∧ (urlsplit (urljoin "http://site.com/" "http://SITE.com/a")).netloc.toList.map Char.toLower
        = (urlsplit "http://site.com/").netloc.toList.map Char.toLower :=
  ⟨rfl, rfl⟩

/-- C6 amended: for a non-empty base, an anchor is classified internal
iff the netloc of its resolved URL equals the netloc of the base URL
under exact, case-sensitive string comparison; otherwise external. -/
theorem classification_netloc_equality (soup : Soup) (base : String) (http : Http)
    (_hbase : base ≠ "") :
    ∀ l ∈ (parse_html soup base http).links,
      (l.type = "internal" ↔ (urlsplit l.url).netloc = (urlsplit base).netloc) := by
  intro l hl
  rw [parse_html_links] at hl
  simp only [List.mem_map] at hl
  obtain ⟨href, -, rfl⟩ := hl
  unfold link_of
  dsimp only
  by_cases h : (urlsplit (urljoin base href)).netloc = (urlsplit base).netloc
  · rw [if_pos h]
    exact iff_of_true rfl h
  · rw [if_neg h]
    exact iff_of_false (by decide) h

/-- C6 witness: with base `https://example.com/` the record produced
for the relative anchor `/about` resolves to
`https://example.com/about` and is internal iff the netlocs agree. -/
theorem classification_netloc_equality_witness :
    (({ url := "https://example.com/about", status := LinkStatus.error
      , type := "internal" } : LinkRec).type = "internal")
      ↔ (urlsplit "https://example.com/about").netloc = (urlsplit "https://example.com/").netloc :=
  classification_netloc_equality w6soup "https://example.com/" errHttp (by decide)
    { url := "https://example.com/about", status := LinkStatus.error, type := "internal" }
    (by decide)

/-- Whether the document has a base tag with a truthy (present and
non-empty) href (the condition on line 44). -/
def truthy_base (soup : Soup) : Bool :=
  match soup.baseTag with
  | some (some h) => h != ""
  | some none => false
  | none => false

/-- C7 counterexample: with no base tag, a first anchor that is
relative and a second anchor that is absolute, base discovery returns
the empty sentinel even though an absolute anchor reference exists —
the code inspects only the first href-bearing anchor. -/
theorem base_url_first_anchor_counterexample :
    get_base_url_from_html c7soup = ""
    ∧ c7soup.anchors.any (fun a => (urlsplit a).netloc != "") = true :=
  ⟨rfl, rfl⟩

/-- C7 amended: base discovery returns the base declaration's href
when one with a truthy href is present; otherwise it considers only
the first href-bearing anchor: if that anchor's reference has a host
it is stripped to its root with `urljoin(href, "/")`, and otherwise
the empty sentinel is returned (even if a later anchor is absolute). -/
theorem base_url_policy (soup : Soup) :
    (∀ h, soup.baseTag = some (some h) → h ≠ "" → get_base_url_from_html soup = h)
    ∧ (truthy_base soup = false → soup.anchors = [] → get_base_url_from_html soup = "")
    ∧ (truthy_base soup = false → ∀ a rest, soup.anchors = a :: rest →
        get_base_url_from_html soup =
          if (urlsplit a).netloc ≠ "" then urljoin a "/" else "") := by
  refine ⟨?_, ?_, ?_⟩
  · intro h hb hne
    unfold get_base_url_from_html
    rw [hb]
    simp [hne]
  · intro htb ha
    rcases hbt : soup.baseTag with _ | ob
    · simp [get_base_url_from_html, first_link_base, hbt, ha]
    · rcases ob with _ | h
      · simp [get_base_url_from_html, first_link_base, hbt, ha]
      · have hh : h = "" := by
          unfold truthy_base at htb
          rw [hbt] at htb
          simpa using htb
        simp [get_base_url_from_html, first_link_base, hbt, ha, hh]
  · intro htb a rest ha
    rcases hbt : soup.baseTag with _ | ob
    · simp [get_base_url_from_html, first_link_base, hbt, ha]
    · rcases ob with _ | h
      · simp [get_base_url_from_html, first_link_base, hbt, ha]
      · have hh : h = "" := by
          unfold truthy_base at htb
          rw [hbt] at htb
          simpa using htb
        simp [get_base_url_from_html, first_link_base, hbt, ha, hh]

/-- C7 witness: the three branches at concrete documents — an
explicit base tag wins; an absolute first anchor is stripped to its
root; no anchors at all yield the empty sentinel. -/
theorem base_url_policy_witness :
    get_base_url_from_html w7a = "http://b.com/dir/"
    ∧ get_base_url_from_html w7b = "http://x.com/"
    ∧ get_base_url_from_html (titledSoup "W") = "" := by
  refine ⟨(base_url_policy w7a).1 "http://b.com/dir/" rfl (by decide), ?_,
    (base_url_policy (titledSoup "W")).2.1 (by decide) rfl⟩
  have h := (base_url_policy w7b).2.2 (by decide) "http://x.com/a/b" [] rfl
  rw [h]
  decide

/-- C8: probing performs the HEAD-equivalent check first (its result
alone decides the status when below 400); on a HEAD status ≥ 400 it
retries exactly once with a full GET and accepts that response's
status; any raised transport failure (in either request) yields the
Errored sentinel on the link record; and the document is never
aborted — every anchor still yields exactly one link record. -/
theorem probe_policy (http : Http) (u : String) :
    (∀ s, http.head u = .status s → s < 400 → check_link http u = .code s)
    ∧ (∀ s t, http.head u = .status s → 400 ≤ s → http.get u = .status t →
        check_link http u = .code t)
    ∧ (∀ s, http.head u = .status s → 400 ≤ s → http.get u = .exn →
        check_link http u = .error)
    ∧ (http.head u = .exn → check_link http u = .error)
    ∧ (∀ (soup : Soup) (base : String),
        (parse_html soup base http).links.length = soup.anchors.length) := by
  refine ⟨?_, ?_, ?_, ?_, ?_⟩
  · intro s hh hs
    simp only [check_link, hh]
    rw [if_neg (by omega)]
  · intro s t hh hs hg
    simp only [check_link, hh]
    rw [if_pos hs, hg]
  · intro s hh hs hg
    simp only [check_link, hh]
    rw [if_pos hs, hg]
  · intro hh
    simp only [check_link, hh]
  · intro soup base
    rw [parse_html_links, List.length_map]

/-- C8 witness: a 200 HEAD is accepted as-is; a 500 HEAD retries with
a GET and accepts its 404; a raising probe yields the Errored
sentinel; and the all-raising network still yields one record per
anchor of the scenario document. -/
theorem probe_policy_witness :
    check_link http200 "http://a.com/" = .code 200
    ∧ check_link http500404 "http://a.com/" = .code 404
    ∧ check_link errHttp "http://a.com/" = .error
    ∧ (parse_html scenarioSoup "http://site.com/" errHttp).links.length
        = scenarioSoup.anchors.length :=
  ⟨(probe_policy http200 "http://a.com/").1 200 rfl (by decide),
   (probe_policy http500404 "http://a.com/").2.1 500 404 rfl (by decide) rfl,
   (probe_policy errHttp "http://a.com/").2.2.2.1 rfl,
   (probe_policy errHttp "http://a.com/").2.2.2.2 scenarioSoup "http://site.com/"⟩

set_option maxRecDepth 20000 in
/-- C9 counterexample: when the enrichment call raises, the exported
artifact for the document `titledSoup "One"` is not the audit report
alone — it additionally carries the enrichment error message. -/
theorem enrichment_failure_artifact_counterexample :
    (process_article errHttp .raised 0 (titledSoup "One")).2.1
        = plain_report_text "" (audit_article (titledSoup "One") errHttp)
          ++ "\n\nEnhanced Analysis:\n" ++ "Error connecting to Mistral."
    ∧ (process_article errHttp .raised 0 (titledSoup "One")).2.1
        ≠ plain_report_text "" (audit_article (titledSoup "One") errHttp) :=
  ⟨rfl, by decide⟩

/-- C9 amended: when the enrichment call fails, the pipeline still
produces the audit report and a downloadable artifact, but the
artifact contains the report together with the enrichment error
message `"Error connecting to Mistral."`, not the report alone. -/
theorem enrichment_failure_artifact (html : Soup) (http : Http) (i : Nat) :
    (process_article http .raised i html).1
        = generate_audit_report (get_base_url_from_html html)
            (parse_html html (get_base_url_from_html html) http)
    ∧ (process_article http .raised i html).2.1
        = plain_report_text (get_base_url_from_html html)
            (generate_audit_report (get_base_url_from_html html)
              (parse_html html (get_base_url_from_html html) http))
          ++ "\n\nEnhanced Analysis:\n" ++ "Error connecting to Mistral."
    ∧ (process_article http .raised i html).2.2
        = create_download_link ((process_article http .raised i html).2.1)
            ("audit_report_" ++ toString (i + 1) ++ ".txt") :=
  ⟨rfl, rfl, rfl⟩

/-- C10: each anchor occurrence yields its own link record: appending
one more occurrence of an href already present among the anchors
extends the link list by exactly one new record and increases the
total by one and each classification/status count by its own
contribution — counting is by anchor multiplicity, not by distinct
URL. -/
theorem link_counts_by_multiplicity (soup : Soup) (base url href : String) (http : Http)
    (_hdup : href ∈ soup.anchors) :
    (parse_html { soup with anchors := soup.anchors ++ [href] } base http).links
        = (parse_html soup base http).links ++ [link_of base http href]
    ∧ (generate_audit_report url
          (parse_html { soup with anchors := soup.anchors ++ [href] } base http)).link_count
        = (generate_audit_report url (parse_html soup base http)).link_count + 1
    ∧ (generate_audit_report url
          (parse_html { soup with anchors := soup.anchors ++ [href] } base http)).internal_link_count
        = (generate_audit_report url (parse_html soup base http)).internal_link_count
          + (if (link_of base http href).type == "internal" then 1 else 0)
    ∧ (generate_audit_report url
          (parse_html { soup with anchors := soup.anchors ++ [href] } base http)).external_link_count
        = (generate_audit_report url (parse_html soup base http)).external_link_count
          + (if (link_of base http href).type == "external" then 1 else 0)
    ∧ (generate_audit_report url
          (parse_html { soup with anchors := soup.anchors ++ [href] } base http)).broken_link_count
        = (generate_audit_report url (parse_html soup base http)).broken_link_count
          + (if (link_of base http href).status != LinkStatus.code 200
                && (link_of base http href).status != LinkStatus.error then 1 else 0)
    ∧ (generate_audit_report url
          (parse_html { soup with anchors := soup.anchors ++ [href] } base http)).error_link_count
        = (generate_audit_report url (parse_html soup base http)).error_link_count
          + (if (link_of base http href).status == LinkStatus.error then 1 else 0) := by
  refine ⟨?_, ?_, ?_, ?_, ?_, ?_⟩
  · show (soup.anchors ++ [href]).map (link_of base http)
        = soup.anchors.map (link_of base http) ++ [link_of base http href]
    rw [List.map_append]
    rfl
  · show ((soup.anchors ++ [href]).map (link_of base http)).length
        = (soup.anchors.map (link_of base http)).length + 1
    rw [List.map_append, List.length_append]
    rfl
  · show ((soup.anchors ++ [href]).map (link_of base http)).countP
          (fun l => l.type == "internal")
        = (soup.anchors.map (link_of base http)).countP (fun l => l.type == "internal")
          + (if (link_of base http href).type == "internal" then 1 else 0)
    rw [List.map_append]
    exact countP_append_singleton _ _ _
  · show ((soup.anchors ++ [href]).map (link_of base http)).countP
          (fun l => l.type == "external")
        = (soup.anchors.map (link_of base http)).countP (fun l => l.type == "external")
          + (if (link_of base http href).type == "external" then 1 else 0)
    rw [List.map_append]
    exact countP_append_singleton _ _ _
  · show ((soup.anchors ++ [href]).map (link_of base http)).countP
          (fun l => l.status != LinkStatus.code 200 && l.status != LinkStatus.error)
        = (soup.anchors.map (link_of base http)).countP
            (fun l => l.status != LinkStatus.code 200 && l.status != LinkStatus.error)
          + (if (link_of base http href).status != LinkStatus.code 200
                && (link_of base http href).status != LinkStatus.error then 1 else 0)
    rw [List.map_append]
    exact countP_append_singleton _ _ _
  · show ((soup.anchors ++ [href]).map (link_of base http)).countP
          (fun l => l.status == LinkStatus.error)
        = (soup.anchors.map (link_of base http)).countP (fun l => l.status == LinkStatus.error)
          + (if (link_of base http href).status == LinkStatus.error then 1 else 0)
    rw [List.map_append]
    exact countP_append_singleton _ _ _

/-- C10 witness: duplicating the single anchor `/a` of `w10soup`
raises the total link count by one. -/
theorem link_counts_by_multiplicity_witness :
    (generate_audit_report ""
        (parse_html { w10soup with anchors := w10soup.anchors ++ ["/a"] } "" errHttp)).link_count
      = (generate_audit_report "" (parse_html w10soup "" errHttp)).link_count + 1 :=
  (link_counts_by_multiplicity w10soup "" "" "/a" errHttp (by decide)).2.1

end SeoAudit
